import Mathlib

/-!
Verification development for the `kaloriz` payment helpers
(`payment/services.py`, plus the item-detail reconciler exercised by
`payment/tests.py`).

The Python code is shallowly embedded: strings are Lean `String`s manipulated
through their underlying `List Char` (Python slicing/stripping semantics are
reimplemented structurally so every definition evaluates inside the kernel),
decimal amounts are integer mantissa/scale pairs, the ORM `Order` row is a
record, the injected gateway client and the network are explicit inputs, and
the in-place payload mutation of `get_or_create_snap_token` is additionally
modelled over an explicit heap of Python container objects so that the
no-mutation (frame) property is expressible.
-/

namespace Kaloriz

/-! ## Python string primitives (by code points, as Python slices strings) -/

/-- Whitespace stripped by Python `str.strip()`:
space, tab, newline, carriage return, vertical tab, form feed.
(Python also strips some exotic Unicode spaces; they never occur here.) -/
def isPySpace (c : Char) : Bool :=
  c.toNat == 32 || c.toNat == 9 || c.toNat == 10 || c.toNat == 13 ||
    c.toNat == 11 || c.toNat == 12

/-- Python `s.strip()`. -/
def pyStrip (s : String) : String :=
  ⟨((s.data.dropWhile isPySpace).reverse.dropWhile isPySpace).reverse⟩

/-- Python `s.lower()` (ASCII case mapping, which covers every status string
and token used by the code). -/
def pyLower (s : String) : String := ⟨s.data.map Char.toLower⟩

/-- Python `len(s)` (code points). -/
def pyLen (s : String) : Nat := s.data.length

/-- Python `s[:n]` for `n ≥ 0`. -/
def pyTake (s : String) (n : Nat) : String := ⟨s.data.take n⟩

/-- Python `s[-n:]` for `n ≥ 0`.  Note the Python quirk: `s[-0:]` is the whole
string, not the empty string. -/
def pySliceLast (s : String) (n : Nat) : String :=
  if n = 0 then s else ⟨s.data.drop (s.data.length - n)⟩

/-- Locate the leftmost occurrence of `sep` and return the characters before
it and the characters after it (the search Python's `in` and `split(sep, 1)`
perform). -/
def findSplit (sep : List Char) : List Char → Option (List Char × List Char)
  | [] => if sep.isEmpty then some ([], []) else none
  | c :: rest =>
    if sep.isPrefixOf (c :: rest) then some ([], (c :: rest).drop sep.length)
    else
      match findSplit sep rest with
      | some (pre, post) => some (c :: pre, post)
      | none => none

/-- Python `sub in s` (for the non-empty separators used by the code). -/
def strContains (s sub : String) : Bool := (findSplit sub.data s.data).isSome

/-- Python `s.split(sep, 1)` when `sep` occurs in `s`: the part before the
first occurrence and everything after it. -/
def pySplitOnce (s sep : String) : String × String :=
  match findSplit sep.data s.data with
  | some (pre, post) => (⟨pre⟩, ⟨post⟩)
  | none => (s, "")

/-- Python `s.endswith(sfx)`. -/
def pyEndsWith (s sfx : String) : Bool := sfx.data.isSuffixOf s.data

/-- Python `int(s)`: strip whitespace, optional sign, decimal digits.
(Python additionally accepts underscore digit grouping and non-ASCII decimal
digits; no such suffix arises in this development.) -/
def pyInt (s : String) : Option Int :=
  let t := pyStrip s
  let core : String :=
    if t.data.head? == some '-' || t.data.head? == some '+' then ⟨t.data.drop 1⟩ else t
  if core ≠ "" ∧ core.data.all Char.isDigit then
    let n : Nat := core.data.foldl (fun acc c => acc * 10 + (c.toNat - 48)) 0
    some (if t.data.head? == some '-' then -(n : Int) else (n : Int))
  else none

/-- Python `a or b` on an optional integer against an integer, as in
`order.midtrans_retry or retry_from_id` (`None` and `0` are both falsy). -/
def pyOrInt (a : Option Int) (b : Int) : Int :=
  match a with
  | some v => if v = 0 then b else v
  | none => b

/-! ## Decimal amounts and `_to_int_amount` -/

/-- A finite decimal value `num / 10 ^ scale`, the shape of every
`decimal.Decimal` the code handles. -/
structure Dec where
  num : Int
  scale : Nat
deriving DecidableEq

/-- Round `n / den` (`den = 10 ^ scale ≥ 1`) to an integer with ties going
away from zero, which is `decimal.ROUND_HALF_UP`. -/
def roundHalfUpInt (n : Int) (den : Nat) : Int :=
  let q := (n.natAbs + den / 2) / den
  if n < 0 then -(q : Int) else (q : Int)

/-- Embeds `_to_int_amount` (services.py lines 20-26): quantize the decimal to
an integer with `ROUND_HALF_UP`.  (The defensive `InvalidOperation → 0` branch
is unreachable here because `Dec` only represents valid decimals.) -/
def to_int_amount (d : Dec) : Int := roundHalfUpInt d.num (10 ^ d.scale)

/-! ## The `Order` row and the configuration surface -/

/-- The fields of the ORM `Order` row that the payment helpers read and
write.  `none` models a `NULL`/absent value (`order.field or ...` treats it
like an empty value). -/
structure Order where
  pk : Nat
  status : Option String
  total : Dec
  midtrans_order_id : Option String
  midtrans_snap_token : Option String
  midtrans_retry : Option Int
deriving DecidableEq

/-- Modelled from the spec: the configuration surface (spec section 6) —
`settings.MIDTRANS_ORDER_ID_PREFIX` (absent = unset), the retry separator
`Order.MIDTRANS_RETRY_SEPARATOR` and the legacy separators
`Order.MIDTRANS_LEGACY_RETRY_SEPARATORS`.  The `Order` class constants live in
`core/models.py`, which is not part of this tree; services.py reads them with
`getattr` defaults `"-R"` and `("::retry::",)`. -/
structure MidtransCfg where
  orderIdPrefixSetting : Option String
  retrySep : String
  legacySeps : List String

/-- The defaults services.py falls back to. -/
def defaultCfg : MidtransCfg := ⟨none, "-R", ["::retry::"]⟩

/-! ## `_split_midtrans_order_id` (services.py lines 68-88) -/

/-- The separator list `[primary] + filter(None, legacy)` and the first
member that is non-empty and occurs in `cur` (the loop at lines 79-86 splits
on the first such separator). -/
def firstSeparator (cfg : MidtransCfg) (cur : String) : Option String :=
  (cfg.retrySep :: cfg.legacySeps.filter (fun s => !(s == ""))).find?
    (fun sep => !(sep == "") && strContains cur sep)

/-- Embeds `_split_midtrans_order_id`: return the base order id (`none` when
blank) and the retry number recovered from the stored value. -/
def split_midtrans_order_id (cfg : MidtransCfg) (o : Order) : Option String × Int :=
  let cur := pyStrip (o.midtrans_order_id.getD "")
  if cur = "" then (none, 0)
  else
    match firstSeparator cfg cur with
    | some sep =>
      let p := pySplitOnce cur sep
      ((if p.1 = "" then none else some p.1), (pyInt p.2).getD 0)
    | none => (some cur, 0)

/-! ## `_build_midtrans_base_id` (services.py lines 91-98) -/

/-- Modelled from the spec: `Order.get_midtrans_base_order_id` is defined in
`core/models.py`, absent from this tree.  Spec section 4.1 specifies building
a fresh base id as `{configured prefix}-{order primary key}` with the prefix
defaulting to a fixed constant, which coincides with the `AttributeError`
fallback embedded here from services.py lines 95-97:
`prefix = (prefix or "KALORIZ").strip(); f"{prefix}-{order.pk}"`. -/
def build_midtrans_base_id (cfg : MidtransCfg) (o : Order) : String :=
  let p0 := cfg.orderIdPrefixSetting.getD "KALORIZ"
  let p1 := pyStrip (if p0 = "" then "KALORIZ" else p0)
  p1 ++ "-" ++ toString o.pk

/-! ## `_compose_midtrans_order_id` (services.py lines 101-119) -/

/-- The retry suffix `f"{separator}{retry_index}"`. -/
def midtransRetrySuffix (sep : String) (retry : Int) : String :=
  sep ++ toString retry

/-- Line 105: `(base_id or _build_midtrans_base_id(order))[:max_length]`. -/
def normalizedMidtransBase (cfg : MidtransCfg) (maxLen : Nat) (o : Order)
    (base_id : String) : String :=
  pyTake (if base_id = "" then build_midtrans_base_id cfg o else base_id) maxLen

/-- Embeds `_compose_midtrans_order_id`: attach the retry suffix to the base
id, truncating to the order-id field's `max_length` (`maxLen`; services.py
reads it off the model field with default 50). -/
def compose_midtrans_order_id (cfg : MidtransCfg) (maxLen : Nat) (o : Order)
    (base_id : String) (retry_index : Int) : String :=
  let normalized_base := normalizedMidtransBase cfg maxLen o base_id
  if retry_index ≤ 0 ∨ cfg.retrySep = "" then normalized_base
  else
    let suffix := midtransRetrySuffix cfg.retrySep retry_index
    if maxLen ≤ pyLen suffix then pySliceLast suffix maxLen
    else
      let allowed := maxLen - pyLen suffix
      let trimmed := pyTake normalized_base allowed
      let trimmed2 := if trimmed = "" then pySliceLast normalized_base allowed else trimmed
      trimmed2 ++ suffix

/-! ## `get_or_create_snap_token` (services.py lines 130-163) -/

/-- What the function hands back: the Python return value `(token, reused)`
or the `RuntimeError` it raises. -/
inductive SnapReturn where
  | ok : String → Bool → SnapReturn
  | raised : String → SnapReturn
deriving DecidableEq

/-- Everything observable about one invocation of `get_or_create_snap_token`:
its return/raise, the in-memory `Order` afterwards, which fields a
`save(update_fields=...)` call persisted (`none` = no save), how many times
`snap_client.create_transaction` was invoked, whether
`clear_midtrans_snap_token` was invoked, and the base id / retry index /
`transaction_details` values used on the mint path. -/
structure SnapEffects where
  returned : SnapReturn
  order : Order
  savedFields : Option (List String)
  createCalls : Nat
  clearedStaleToken : Bool
  baseIdUsed : Option String
  retryIndexUsed : Option Int
  sentOrderId : Option String
  sentGross : Option Int
deriving DecidableEq

/-- Modelled from the spec: `Order.clear_midtrans_snap_token` is defined in
`core/models.py`, absent from this tree; spec section 4.2 says it clears the
stale token field.  services.py line 139-140 invokes it exactly when a
non-empty token exists on the non-reuse path. -/
def afterStaleClear (o : Order) : Order :=
  if pyStrip (o.midtrans_snap_token.getD "") ≠ "" then
    { o with midtrans_snap_token := none }
  else o

/-- The decision-table condition for the mint path: not (non-empty token and
pending status). -/
abbrev reachesMint (o : Order) : Prop :=
  ¬ (pyStrip (o.midtrans_snap_token.getD "") ≠ "" ∧
     pyLower (o.status.getD "") = "pending")

/-- Line 143: `base_id = base_id or _build_midtrans_base_id(order)`. -/
def resolvedBase (cfg : MidtransCfg) (o1 : Order) : String :=
  match (split_midtrans_order_id cfg o1).1 with
  | some b => b
  | none => build_midtrans_base_id cfg o1

/-- Line 144: `retry_index = order.midtrans_retry or retry_from_id or 0`. -/
def resolvedRetry (cfg : MidtransCfg) (o1 : Order) : Int :=
  pyOrInt o1.midtrans_retry (split_midtrans_order_id cfg o1).2

/-- Embeds `get_or_create_snap_token`.  The gateway client is represented by
`snapTokenField`, the value of `snap_client.create_transaction(payload).get("token")`
(`none` = the response carries no token field). -/
def get_or_create_snap_token (cfg : MidtransCfg) (maxLen : Nat) (order : Order)
    (snapTokenField : Option String) : SnapEffects :=
  let existing_token := pyStrip (order.midtrans_snap_token.getD "")
  if existing_token ≠ "" ∧ pyLower (order.status.getD "") = "pending" then
    ⟨.ok existing_token true, order, none, 0, false, none, none, none, none⟩
  else
    let o1 := afterStaleClear order
    let cleared := !(existing_token == "")
    let base_id := resolvedBase cfg o1
    let retry_index := resolvedRetry cfg o1
    let candidate := compose_midtrans_order_id cfg maxLen o1 base_id retry_index
    let gross := to_int_amount o1.total
    match snapTokenField with
    | none =>
      ⟨.raised "Token Snap tidak tersedia.", o1, none, 1, cleared,
        some base_id, some retry_index, some candidate, some gross⟩
    | some t =>
      if t = "" then
        ⟨.raised "Token Snap tidak tersedia.", o1, none, 1, cleared,
          some base_id, some retry_index, some candidate, some gross⟩
      else
        ⟨.ok t false,
          { o1 with midtrans_order_id := some candidate,
                    midtrans_snap_token := some t,
                    midtrans_retry := some (retry_index + 1) },
          some ["midtrans_order_id", "midtrans_snap_token", "midtrans_retry"],
          1, cleared, some base_id, some retry_index, some candidate, some gross⟩

/-! ## `fetch_midtrans_transaction_status` (services.py lines 29-65) -/

/-- A JSON value, the shape of what `json.loads` yields. -/
inductive Json where
  | jnull
  | jbool : Bool → Json
  | jnum : Int → Json
  | jstr : String → Json
  | jarr : List Json → Json
  | jobj : List (String × Json) → Json

/-- What the `urlopen` call can come back with: a 2xx response body, an
`HTTPError` with its status code and the body read from the exception, or a
`URLError` (connection-level failure). -/
inductive HttpOutcome where
  | success : String → HttpOutcome
  | httpError : Nat → String → HttpOutcome
  | connError : HttpOutcome

/-- Embeds `fetch_midtrans_transaction_status`.  `jsonLoads` stands for
`json.loads` (`none` = `JSONDecodeError`); `net` is the outcome of the single
HTTP request.  Mirrors the control flow exactly: a non-404 `HTTPError` binds
`raw_body` to the error body and falls through to the empty-body check and
JSON parsing, it does not return early. -/
def fetch_midtrans_transaction_status (serverKey orderId : String)
    (net : HttpOutcome) (jsonLoads : String → Option Json) : Option Json :=
  if orderId = "" ∨ serverKey = "" then none
  else
    match net with
    | .connError => none
    | .httpError code body =>
      if code = 404 then none
      else if body = "" then none
      else jsonLoads body
    | .success body =>
      if body = "" then none
      else jsonLoads body

/-! ## `_ensure_midtrans_item_detail_total` (exercised by payment/tests.py) -/

/-- A Midtrans line item: identifier, display name, unit price in integer
minor currency units, quantity. -/
structure LineItem where
  id : String
  name : String
  price : Int
  quantity : Int
deriving DecidableEq

/-- The sum of `item.price * item.quantity` over the items. -/
def itemDetailSum (items : List LineItem) : Int :=
  items.foldl (fun acc it => acc + it.price * it.quantity) 0

/-- Modelled from the spec: `_ensure_midtrans_item_detail_total` is defined in
`payment/views.py`, which is not part of this tree (only `payment/tests.py`
exercising it is).  Spec section 4.3: quantize the target with round-half-up;
if the items already sum to it, return them unchanged, otherwise append one
synthetic item with id `"ADJUSTMENT"`, quantity 1 and price `target - sum`
(possibly negative).  The adjustment's display name is not specified. -/
def ensure_midtrans_item_detail_total (items : List LineItem) (target : Dec) :
    List LineItem × Int :=
  let gross := to_int_amount target
  let s := itemDetailSum items
  if s = gross then (items, gross)
  else (items ++ [⟨"ADJUSTMENT", "Adjustment", gross - s, 1⟩], gross)

/-! ## Heap model of the payload preparation (for the no-mutation claim)

`_clone_payload` (services.py lines 122-127) and the `transaction_details`
writes (lines 147-151) are the only places the function touches Python
container objects in place, so they are embedded once more over an explicit
heap of dict/list objects, with aliasing made visible through references. -/

/-- A Python value sitting inside a container: scalars or a reference to
another container object on the heap. -/
inductive PVal where
  | vnone
  | vbool : Bool → PVal
  | vint : Int → PVal
  | vstr : String → PVal
  | vref : Nat → PVal
deriving DecidableEq

/-- A Python container object: a dict (insertion-ordered key/value pairs) or
a list. -/
inductive PObj where
  | pdict : List (String × PVal) → PObj
  | plist : List PVal → PObj

/-- A heap of container objects; the most recent binding of an address wins. -/
abbrev Heap := List (Nat × PObj)

/-- Read the object at address `a`. -/
def heapFind (h : Heap) (a : Nat) : Option PObj :=
  (h.find? (fun e => e.1 == a)).map (fun e => e.2)

/-- Python `d.get(k)` on a dict's entry list. -/
def dictGet (es : List (String × PVal)) (k : String) : Option PVal :=
  (es.find? (fun e => e.1 == k)).map (fun e => e.2)

/-- Python `d[k] = v` on a dict's entry list: replace the value in place if
the key is present (keys are unique in a dict), append otherwise (dicts
preserve insertion order). -/
def dictSet : List (String × PVal) → String → PVal → List (String × PVal)
  | [], k, v => [(k, v)]
  | e :: es, k, v => if e.1 == k then (k, v) :: es else e :: dictSet es k v

/-- Python `dict(x or ...)` on a dict-valued entry: the entries of the
referenced dict, or nothing when the key is absent, `None`, or an empty
container. -/
def refEntries (h : Heap) (v : Option PVal) : List (String × PVal) :=
  match v with
  | some (.vref r) =>
    match heapFind h r with
    | some (.pdict es) => es
    | _ => []
  | _ => []

/-- Python `list(x or [])` on a list-valued entry. -/
def refElems (h : Heap) (v : Option PVal) : List PVal :=
  match v with
  | some (.vref r) =>
    match heapFind h r with
    | some (.plist xs) => xs
    | _ => []
  | _ => []

/-- Embeds `_clone_payload` followed by the `transaction_details` writes of
`get_or_create_snap_token` (services.py lines 147-151) over the heap.
`basePayload` is the caller's template (`none` = Python `None`); `next0` is
the next free address.  Returns the final heap, the next free address, the
clone's address and the cloned `transaction_details` address.  Every write
targets a freshly allocated object. -/
def prepare_transaction_payload (h0 : Heap) (next0 : Nat)
    (basePayload : Option Nat) (orderId : String) (gross : Int) :
    Heap × Nat × Nat × Nat :=
  let baseEntries :=
    match basePayload with
    | some r =>
      match heapFind h0 r with
      | some (.pdict es) => es
      | _ => []
    | none => []
  let pRef := next0
  let h1 : Heap := (pRef, .pdict baseEntries) :: h0
  let tdEs := refEntries h1 (dictGet baseEntries "transaction_details")
  let tdRef := next0 + 1
  let h2 : Heap := (tdRef, .pdict tdEs) :: h1
  let pEs1 := dictSet baseEntries "transaction_details" (.vref tdRef)
  let h3 : Heap := (pRef, .pdict pEs1) :: h2
  let itXs := refElems h3 (dictGet pEs1 "item_details")
  let itRef := next0 + 2
  let h4 : Heap := (itRef, .plist itXs) :: h3
  let pEs2 := dictSet pEs1 "item_details" (.vref itRef)
  let h5 : Heap := (pRef, .pdict pEs2) :: h4
  let cdEs := refEntries h5 (dictGet pEs2 "customer_details")
  let cdRef := next0 + 3
  let h6 : Heap := (cdRef, .pdict cdEs) :: h5
  let pEs3 := dictSet pEs2 "customer_details" (.vref cdRef)
  let h7 : Heap := (pRef, .pdict pEs3) :: h6
  let tdEs1 := dictSet tdEs "order_id" (.vstr orderId)
  let h8 : Heap := (tdRef, .pdict tdEs1) :: h7
  let tdEs2 := dictSet tdEs1 "gross_amount" (.vint gross)
  let h9 : Heap := (tdRef, .pdict tdEs2) :: h8
  let pEs4 := dictSet pEs3 "transaction_details" (.vref tdRef)
  let h10 : Heap := (pRef, .pdict pEs4) :: h9
  (h10, next0 + 4, pRef, tdRef)

/-! ## Shared concrete inputs for witnesses and counterexamples -/

/-- An order row with primary key 7 and the given id/token/status/retry
fields (total 0; the total only matters for the gross amount). -/
def sampleOrder (oid tok st : Option String) (r : Option Int) : Order :=
  ⟨7, st, ⟨0, 0⟩, oid, tok, r⟩

/-- A `json.loads` stand-in for concrete runs: the body `"2"` is valid JSON
denoting the number 2, anything else fails to parse. -/
def sampleJsonParse : String → Option Json :=
  fun s => if s = "2" then some (Json.jnum 2) else none

/-- A 51-character base identifier, longer than the default 50-character
order-id field. -/
def longBase51 : String :=
  "AAAAAAAAAAAAAAAAAAAAAAAAAAAAAAAAAAAAAAAAAAAAAAAAAAA"

/-- A small caller heap: the template at address 0 references a
`transaction_details` dict at address 1. -/
def sampleHeap : Heap :=
  [(0, PObj.pdict [("transaction_details", PVal.vref 1)]),
   (1, PObj.pdict [("expiry", PVal.vint 3)])]

/-! ## Helper lemmas -/

theorem pyLen_eq_length (s : String) : pyLen s = s.length := by
  cases s
  rfl

theorem pyLen_append (s t : String) : pyLen (s ++ t) = pyLen s + pyLen t := by
  rw [pyLen_eq_length, pyLen_eq_length, pyLen_eq_length, String.length_append]

theorem pyTake_len (s : String) (n : Nat) : pyLen (pyTake s n) ≤ n := by
  show (s.data.take n).length ≤ n
  simp [List.length_take]

theorem pySliceLast_len (s : String) (n : Nat) (h : n ≠ 0) :
    pyLen (pySliceLast s n) ≤ n := by
  unfold pySliceLast
  rw [if_neg h]
  show (s.data.drop (s.data.length - n)).length ≤ n
  simp [List.length_drop]
  omega

theorem pyTake_of_le (s : String) (n : Nat) (h : pyLen s ≤ n) : pyTake s n = s := by
  unfold pyTake
  rw [List.take_of_length_le h]

theorem pyLen_pos (s : String) (h : s ≠ "") : 1 ≤ pyLen s := by
  cases s with
  | mk l =>
    cases l with
    | nil => exact absurd rfl h
    | cons c cs => simp [pyLen]

theorem itemDetailSum_append (xs : List LineItem) (a : LineItem) :
    itemDetailSum (xs ++ [a]) = itemDetailSum xs + a.price * a.quantity := by
  unfold itemDetailSum
  rw [List.foldl_append]
  rfl

theorem afterStaleClear_retry (o : Order) :
    (afterStaleClear o).midtrans_retry = o.midtrans_retry := by
  unfold afterStaleClear
  split <;> rfl

theorem afterStaleClear_order_id (o : Order) :
    (afterStaleClear o).midtrans_order_id = o.midtrans_order_id := by
  unfold afterStaleClear
  split <;> rfl

theorem afterStaleClear_token_of_ne (o : Order)
    (h : pyStrip (o.midtrans_snap_token.getD "") ≠ "") :
    (afterStaleClear o).midtrans_snap_token = none := by
  unfold afterStaleClear
  rw [if_pos h]

theorem resolvedBase_of_none (cfg : MidtransCfg) (o1 : Order)
    (h : (split_midtrans_order_id cfg o1).1 = none) :
    resolvedBase cfg o1 = build_midtrans_base_id cfg o1 := by
  unfold resolvedBase
  rw [h]

theorem resolvedRetry_of_stored (cfg : MidtransCfg) (o : Order) (r : Int)
    (hr : o.midtrans_retry = some r) (hnz : r ≠ 0) :
    resolvedRetry cfg (afterStaleClear o) = r := by
  unfold resolvedRetry
  rw [afterStaleClear_retry, hr]
  simp [pyOrInt, hnz]

/-! ## Claim theorems -/

/-- C3: for every ordered sequence of line items and every target decimal
amount, the reconciler returns a sequence and an integer gross amount such
that the sum of `price * quantity` over the returned sequence equals the
round-half-up integer quantization of the target exactly, and the returned
sequence is either identical to the input (when the input already sums to the
target) or the input plus exactly one appended item with id `"ADJUSTMENT"`,
quantity 1, and price `target - sum` (possibly negative). -/
theorem c3_reconciler_exact (items : List LineItem) (target : Dec) :
    (ensure_midtrans_item_detail_total items target).2 = to_int_amount target ∧
    itemDetailSum (ensure_midtrans_item_detail_total items target).1
      = to_int_amount target ∧
    ((itemDetailSum items = to_int_amount target ∧
        (ensure_midtrans_item_detail_total items target).1 = items) ∨
      (itemDetailSum items ≠ to_int_amount target ∧
        ∃ adj : LineItem,
          (ensure_midtrans_item_detail_total items target).1 = items ++ [adj] ∧
          adj.id = "ADJUSTMENT" ∧ adj.quantity = 1 ∧
          adj.price = to_int_amount target - itemDetailSum items)) := by
  simp only [ensure_midtrans_item_detail_total]
  by_cases h : itemDetailSum items = to_int_amount target
  · rw [if_pos h]
    exact ⟨rfl, h, Or.inl ⟨h, rfl⟩⟩
  · rw [if_neg h]
    refine ⟨rfl, ?_, Or.inr ⟨h, ⟨_, rfl, rfl, rfl, rfl⟩⟩⟩
    rw [itemDetailSum_append]
    simp

/-- C5: for every base identifier and retry index (with an actual positive
field length, as Django requires of `max_length`), the composed order id has
length at most the maximum length, and it is either the normalized (truncated)
base, or a trimmed base followed by `separator + retryNumber`, or — when the
retry suffix alone meets or exceeds the maximum length — the suffix's trailing
`maxLen` characters. -/
theorem c5_compose_length_invariant (cfg : MidtransCfg) (maxLen : Nat)
    (o : Order) (base : String) (retry : Int) (hmax : 1 ≤ maxLen) :
    pyLen (compose_midtrans_order_id cfg maxLen o base retry) ≤ maxLen ∧
    (compose_midtrans_order_id cfg maxLen o base retry
        = normalizedMidtransBase cfg maxLen o base ∨
      (∃ tb : String, compose_midtrans_order_id cfg maxLen o base retry
          = tb ++ midtransRetrySuffix cfg.retrySep retry) ∨
      (maxLen ≤ pyLen (midtransRetrySuffix cfg.retrySep retry) ∧
        compose_midtrans_order_id cfg maxLen o base retry
          = pySliceLast (midtransRetrySuffix cfg.retrySep retry) maxLen)) := by
  simp only [compose_midtrans_order_id]
  by_cases hc : retry ≤ 0 ∨ cfg.retrySep = ""
  · rw [if_pos hc]
    exact ⟨pyTake_len _ _, Or.inl rfl⟩
  · rw [if_neg hc]
    by_cases hs : maxLen ≤ pyLen (midtransRetrySuffix cfg.retrySep retry)
    · rw [if_pos hs]
      exact ⟨pySliceLast_len _ _ (by omega), Or.inr (Or.inr ⟨hs, rfl⟩)⟩
    · rw [if_neg hs]
      by_cases ht : pyTake (normalizedMidtransBase cfg maxLen o base)
          (maxLen - pyLen (midtransRetrySuffix cfg.retrySep retry)) = ""
      · rw [if_pos ht]
        constructor
        · rw [pyLen_append]
          have h1 := pySliceLast_len (normalizedMidtransBase cfg maxLen o base)
            (maxLen - pyLen (midtransRetrySuffix cfg.retrySep retry)) (by omega)
          omega
        · exact Or.inr (Or.inl ⟨_, rfl⟩)
      · rw [if_neg ht]
        constructor
        · rw [pyLen_append]
          have h1 := pyTake_len (normalizedMidtransBase cfg maxLen o base)
            (maxLen - pyLen (midtransRetrySuffix cfg.retrySep retry))
          omega
        · exact Or.inr (Or.inl ⟨_, rfl⟩)

/-- C5 witness: the invariant instantiated at a concrete composition. -/
theorem c5_compose_length_invariant_witness :
    pyLen (compose_midtrans_order_id defaultCfg 50
        (sampleOrder none none none none) "BASE" 2) ≤ 50 ∧
    (compose_midtrans_order_id defaultCfg 50
        (sampleOrder none none none none) "BASE" 2
        = normalizedMidtransBase defaultCfg 50 (sampleOrder none none none none) "BASE" ∨
      (∃ tb : String, compose_midtrans_order_id defaultCfg 50
          (sampleOrder none none none none) "BASE" 2
          = tb ++ midtransRetrySuffix defaultCfg.retrySep 2) ∨
      (50 ≤ pyLen (midtransRetrySuffix defaultCfg.retrySep 2) ∧
        compose_midtrans_order_id defaultCfg 50
          (sampleOrder none none none none) "BASE" 2
          = pySliceLast (midtransRetrySuffix defaultCfg.retrySep 2) 50)) :=
  c5_compose_length_invariant defaultCfg 50 (sampleOrder none none none none)
    "BASE" 2 (by decide)

/-- C6 counterexample: composing with retry index 0 does not always return
the base id unmodified — a base longer than the field's maximum length is
truncated (services.py line 105). -/
theorem c6_counterexample :
    compose_midtrans_order_id defaultCfg 50 (sampleOrder none none none none)
        longBase51 0 ≠ longBase51 ∧
    compose_midtrans_order_id defaultCfg 50 (sampleOrder none none none none)
        longBase51 0 = pyTake longBase51 50 := by
  constructor
  · decide
  · decide

/-- C6 amended: composing with retry index ≤ 0 (or no separator configured)
returns the normalized base — the given base id, or the freshly built base id
when the given one is empty, truncated to the maximum length — hence the base
id unmodified whenever it is non-empty and fits; and composing with retry
index 1 returns `base + separator + "1"` whenever the separator is configured,
the base is non-empty, and that concatenation fits the maximum length. -/
theorem c6_amended_compose (cfg : MidtransCfg) (maxLen : Nat) (o : Order)
    (base : String) (retry : Int) :
    ((retry ≤ 0 ∨ cfg.retrySep = "") →
      compose_midtrans_order_id cfg maxLen o base retry
        = normalizedMidtransBase cfg maxLen o base) ∧
    (base ≠ "" → pyLen base ≤ maxLen → (retry ≤ 0 ∨ cfg.retrySep = "") →
      compose_midtrans_order_id cfg maxLen o base retry = base) ∧
    (base ≠ "" → cfg.retrySep ≠ "" →
      pyLen base + pyLen (midtransRetrySuffix cfg.retrySep 1) ≤ maxLen →
      compose_midtrans_order_id cfg maxLen o base 1
        = base ++ midtransRetrySuffix cfg.retrySep 1) := by
  refine ⟨?_, ?_, ?_⟩
  · intro hc
    simp only [compose_midtrans_order_id]
    rw [if_pos hc]
  · intro hb hfit hc
    simp only [compose_midtrans_order_id]
    rw [if_pos hc]
    unfold normalizedMidtransBase
    rw [if_neg hb]
    exact pyTake_of_le base maxLen hfit
  · intro hb hsep hfit
    have hbase1 : 1 ≤ pyLen base := pyLen_pos base hb
    have hnorm : normalizedMidtransBase cfg maxLen o base = base := by
      unfold normalizedMidtransBase
      rw [if_neg hb]
      exact pyTake_of_le base maxLen (by omega)
    simp only [compose_midtrans_order_id]
    rw [if_neg (by push_neg; exact ⟨by omega, hsep⟩)]
    rw [if_neg (by omega)]
    rw [hnorm]
    have htrim : pyTake base (maxLen - pyLen (midtransRetrySuffix cfg.retrySep 1))
        = base := pyTake_of_le base _ (by omega)
    rw [htrim, if_neg hb]

/-- C6 witness for the amended claim at concrete inputs. -/
theorem c6_amended_compose_witness :
    compose_midtrans_order_id defaultCfg 50 (sampleOrder none none none none)
        "BASE" 0 = "BASE" ∧
    compose_midtrans_order_id defaultCfg 50 (sampleOrder none none none none)
        "BASE" 1 = "BASE" ++ midtransRetrySuffix defaultCfg.retrySep 1 := by
  constructor
  · exact (c6_amended_compose defaultCfg 50 (sampleOrder none none none none)
      "BASE" 0).2.1 (by decide) (by decide) (Or.inl (by decide))
  · exact (c6_amended_compose defaultCfg 50 (sampleOrder none none none none)
      "BASE" 1).2.2 (by decide) (by decide) (by decide)

/-- C1 counterexample: for an order with token `" tok "` (non-empty after
stripping) and pending status, the function returns the stripped token
`"tok"`, not the stored token unchanged. -/
theorem c1_counterexample :
    (get_or_create_snap_token defaultCfg 50
        (sampleOrder none (some " tok ") (some "pending") none) none).returned
      = SnapReturn.ok "tok" true ∧
    (get_or_create_snap_token defaultCfg 50
        (sampleOrder none (some " tok ") (some "pending") none) none).returned
      ≠ SnapReturn.ok " tok " true := by
  constructor
  · decide
  · decide

/-- C1 amended: for every order whose token is non-empty after stripping and
whose status is `"pending"` case-insensitively, the function returns the
whitespace-stripped stored token (identical to the stored value whenever it
carries no surrounding whitespace) with the reused flag true, makes no
gateway call, performs no save, and leaves the order unchanged. -/
theorem c1_amended_reuse (cfg : MidtransCfg) (maxLen : Nat) (o : Order)
    (tok : Option String)
    (htok : pyStrip (o.midtrans_snap_token.getD "") ≠ "")
    (hpend : pyLower (o.status.getD "") = "pending") :
    (get_or_create_snap_token cfg maxLen o tok).returned
      = SnapReturn.ok (pyStrip (o.midtrans_snap_token.getD "")) true ∧
    (get_or_create_snap_token cfg maxLen o tok).createCalls = 0 ∧
    (get_or_create_snap_token cfg maxLen o tok).order = o ∧
    (get_or_create_snap_token cfg maxLen o tok).savedFields = none := by
  simp only [get_or_create_snap_token]
  rw [if_pos ⟨htok, hpend⟩]
  exact ⟨rfl, rfl, rfl, rfl⟩

/-- C1 witness for the amended claim: a token with surrounding whitespace and
a mixed-case pending status. -/
theorem c1_amended_reuse_witness :
    (get_or_create_snap_token defaultCfg 50
        (sampleOrder none (some " t0 ") (some "Pending") none) none).returned
      = SnapReturn.ok "t0" true ∧
    (get_or_create_snap_token defaultCfg 50
        (sampleOrder none (some " t0 ") (some "Pending") none) none).createCalls = 0 ∧
    (get_or_create_snap_token defaultCfg 50
        (sampleOrder none (some " t0 ") (some "Pending") none) none).order
      = sampleOrder none (some " t0 ") (some "Pending") none ∧
    (get_or_create_snap_token defaultCfg 50
        (sampleOrder none (some " t0 ") (some "Pending") none) none).savedFields
      = none := by
  have h := c1_amended_reuse defaultCfg 50
    (sampleOrder none (some " t0 ") (some "Pending") none) none
    (by decide) (by decide)
  refine ⟨?_, h.2.1, h.2.2.1, h.2.2.2⟩
  rw [h.1]
  decide

/-- C7: for every order with a non-empty (stripped) token and a status other
than `"pending"` case-insensitively, the function invokes the token-clearing
method — leaving the pre-mint order with no snap token — and then proceeds to
mint: exactly one gateway call is made. -/
theorem c7_clears_stale_token (cfg : MidtransCfg) (maxLen : Nat) (o : Order)
    (tok : Option String)
    (htok : pyStrip (o.midtrans_snap_token.getD "") ≠ "")
    (hst : pyLower (o.status.getD "") ≠ "pending") :
    (get_or_create_snap_token cfg maxLen o tok).clearedStaleToken = true ∧
    (afterStaleClear o).midtrans_snap_token = none ∧
    (get_or_create_snap_token cfg maxLen o tok).createCalls = 1 := by
  have hcond : ¬ (pyStrip (o.midtrans_snap_token.getD "") ≠ "" ∧
      pyLower (o.status.getD "") = "pending") := fun hc => hst hc.2
  have hb : (pyStrip (o.midtrans_snap_token.getD "") == "") = false := by
    cases hx : pyStrip (o.midtrans_snap_token.getD "") == "" with
    | true => exact absurd (eq_of_beq hx) htok
    | false => rfl
  simp only [get_or_create_snap_token]
  rw [if_neg hcond]
  refine ⟨?_, afterStaleClear_token_of_ne o htok, ?_⟩
  · cases tok with
    | none => simp [hb]
    | some t =>
      by_cases hq : t = ""
      · simp [hb, hq]
      · simp [hb, hq]
  · cases tok with
    | none => rfl
    | some t =>
      by_cases hq : t = ""
      · simp [hq]
      · simp [hq]

/-- C7 witness: expired order with a stale token. -/
theorem c7_clears_stale_token_witness :
    (get_or_create_snap_token defaultCfg 50
        (sampleOrder (some "KALORIZ-7") (some "old") (some "expire") none)
        (some "new")).clearedStaleToken = true ∧
    (afterStaleClear
        (sampleOrder (some "KALORIZ-7") (some "old") (some "expire") none)).midtrans_snap_token
      = none ∧
    (get_or_create_snap_token defaultCfg 50
        (sampleOrder (some "KALORIZ-7") (some "old") (some "expire") none)
        (some "new")).createCalls = 1 :=
  c7_clears_stale_token defaultCfg 50
    (sampleOrder (some "KALORIZ-7") (some "old") (some "expire") none)
    (some "new") (by decide) (by decide)

/-- C2: on every mint path, the retry index used is the order's stored
`midtrans_retry` counter when present (non-zero), in preference to the value
recovered by splitting the stored `midtrans_order_id`; a suffix that fails
integer parsing yields retry 0 and absence of any separator yields retry 0;
the candidate order id is composed at that index; on success the persisted
`midtrans_retry` equals that index plus one.  The last conjunct is the spec's
example: order id `"KALORIZ-1"`, retry 1, no token, gives a mint id ending in
`"-R1"` and a post-call retry of 2. -/
theorem c2_retry_preference :
    (∀ (cfg : MidtransCfg) (maxLen : Nat) (o : Order) (tok : Option String) (r : Int),
      reachesMint o → o.midtrans_retry = some r → r ≠ 0 →
      (get_or_create_snap_token cfg maxLen o tok).retryIndexUsed = some r ∧
      (get_or_create_snap_token cfg maxLen o tok).sentOrderId
        = some (compose_midtrans_order_id cfg maxLen (afterStaleClear o)
            (resolvedBase cfg (afterStaleClear o)) r) ∧
      (∀ t : String, tok = some t → t ≠ "" →
        (get_or_create_snap_token cfg maxLen o tok).order.midtrans_retry
          = some (r + 1))) ∧
    (∀ (cfg : MidtransCfg) (o : Order) (sep : String),
      firstSeparator cfg (pyStrip (o.midtrans_order_id.getD "")) = some sep →
      pyInt (pySplitOnce (pyStrip (o.midtrans_order_id.getD "")) sep).2 = none →
      (split_midtrans_order_id cfg o).2 = 0) ∧
    (∀ (cfg : MidtransCfg) (o : Order),
      firstSeparator cfg (pyStrip (o.midtrans_order_id.getD "")) = none →
      (split_midtrans_order_id cfg o).2 = 0) ∧
    (pyEndsWith ((get_or_create_snap_token defaultCfg 50
          (sampleOrder (some "KALORIZ-1") none none (some 1))
          (some "tk")).sentOrderId.getD "") "-R1" = true ∧
      (get_or_create_snap_token defaultCfg 50
          (sampleOrder (some "KALORIZ-1") none none (some 1))
          (some "tk")).order.midtrans_retry = some 2) := by
  refine ⟨?_, ?_, ?_, by decide, by decide⟩
  · intro cfg maxLen o tok r hm hr hnz
    have hri : resolvedRetry cfg (afterStaleClear o) = r :=
      resolvedRetry_of_stored cfg o r hr hnz
    simp only [get_or_create_snap_token]
    rw [if_neg hm]
    refine ⟨?_, ?_, ?_⟩
    · cases tok with
      | none => simp [hri]
      | some t =>
        by_cases hq : t = ""
        · simp [hq, hri]
        · simp [hq, hri]
    · cases tok with
      | none => simp [hri]
      | some t =>
        by_cases hq : t = ""
        · simp [hq, hri]
        · simp [hq, hri]
    · intro t ht htne
      subst ht
      simp [htne, hri]
  · intro cfg o sep hsep hparse
    simp only [split_midtrans_order_id]
    by_cases hcur : pyStrip (o.midtrans_order_id.getD "") = ""
    · rw [if_pos hcur]
    · rw [if_neg hcur]
      simp only [hsep, hparse]
      rfl
  · intro cfg o hnone
    simp only [split_midtrans_order_id]
    by_cases hcur : pyStrip (o.midtrans_order_id.getD "") = ""
    · rw [if_pos hcur]
    · rw [if_neg hcur]
      simp only [hnone]

/-- C2 witness: the stored counter 1 wins on the mint path, an unparseable
suffix yields split retry 0, and a separator-free id yields split retry 0. -/
theorem c2_retry_preference_witness :
    (get_or_create_snap_token defaultCfg 50
        (sampleOrder (some "KALORIZ-1") none none (some 1))
        (some "tk")).retryIndexUsed = some 1 ∧
    (split_midtrans_order_id defaultCfg
        (sampleOrder (some "A-Rxy") none none none)).2 = 0 ∧
    (split_midtrans_order_id defaultCfg
        (sampleOrder (some "PLAIN") none none none)).2 = 0 := by
  refine ⟨?_, ?_, ?_⟩
  · exact (c2_retry_preference.1 defaultCfg 50
      (sampleOrder (some "KALORIZ-1") none none (some 1)) (some "tk") 1
      (by decide) rfl (by decide)).1
  · exact c2_retry_preference.2.1 defaultCfg
      (sampleOrder (some "A-Rxy") none none none) "-R" (by decide) (by decide)
  · exact c2_retry_preference.2.2.1 defaultCfg
      (sampleOrder (some "PLAIN") none none none) (by decide)

/-- C4: on the mint path the function reports the operational error exactly
when the gateway response carries no token or an empty token; in that case
nothing is saved; on success all three fields are persisted in a single
update (`midtrans_order_id` set to the candidate id that was sent,
`midtrans_snap_token` to the fresh token, `midtrans_retry` to the retry index
plus one) and the token is reported as freshly minted. -/
theorem c4_mint_error_handling (cfg : MidtransCfg) (maxLen : Nat) (o : Order)
    (tok : Option String) (hm : reachesMint o) :
    ((get_or_create_snap_token cfg maxLen o tok).returned
        = SnapReturn.raised "Token Snap tidak tersedia."
      ↔ (tok = none ∨ tok = some "")) ∧
    ((tok = none ∨ tok = some "") →
      (get_or_create_snap_token cfg maxLen o tok).savedFields = none) ∧
    (∀ t : String, tok = some t → t ≠ "" →
      (get_or_create_snap_token cfg maxLen o tok).savedFields
        = some ["midtrans_order_id", "midtrans_snap_token", "midtrans_retry"] ∧
      (get_or_create_snap_token cfg maxLen o tok).returned = SnapReturn.ok t false ∧
      (get_or_create_snap_token cfg maxLen o tok).order.midtrans_order_id
        = (get_or_create_snap_token cfg maxLen o tok).sentOrderId ∧
      (get_or_create_snap_token cfg maxLen o tok).order.midtrans_snap_token = some t ∧
      (get_or_create_snap_token cfg maxLen o tok).order.midtrans_retry
        = some (resolvedRetry cfg (afterStaleClear o) + 1)) := by
  simp only [get_or_create_snap_token]
  rw [if_neg hm]
  cases tok with
  | none =>
    refine ⟨⟨fun _ => Or.inl rfl, fun _ => rfl⟩, fun _ => rfl, ?_⟩
    intro t ht
    exact absurd ht (by simp)
  | some t =>
    by_cases hq : t = ""
    · subst hq
      refine ⟨⟨fun _ => Or.inr rfl, fun _ => by simp⟩, fun _ => by simp, ?_⟩
      intro t' ht' htne
      exact absurd (Option.some.inj ht').symm htne
    · refine ⟨⟨?_, ?_⟩, ?_, ?_⟩
      · intro hcontra
        simp [hq] at hcontra
      · intro habs
        rcases habs with h | h
        · exact absurd h (by simp)
        · exact absurd (Option.some.inj h) hq
      · intro habs
        rcases habs with h | h
        · exact absurd h (by simp)
        · exact absurd (Option.some.inj h) hq
      · intro t' ht' htne
        have ht : t = t' := Option.some.inj ht'
        subst ht
        simp [hq]

/-- C4 witness: a fresh order minted successfully, and the same order with a
token-less gateway response. -/
theorem c4_mint_error_handling_witness :
    ((get_or_create_snap_token defaultCfg 50
          (sampleOrder (some "KALORIZ-7") none none none) none).returned
        = SnapReturn.raised "Token Snap tidak tersedia."
      ↔ ((none : Option String) = none ∨ (none : Option String) = some "")) ∧
    (get_or_create_snap_token defaultCfg 50
        (sampleOrder (some "KALORIZ-7") none none none) none).savedFields = none ∧
    (get_or_create_snap_token defaultCfg 50
        (sampleOrder (some "KALORIZ-7") none none none) (some "fresh")).savedFields
      = some ["midtrans_order_id", "midtrans_snap_token", "midtrans_retry"] ∧
    (get_or_create_snap_token defaultCfg 50
        (sampleOrder (some "KALORIZ-7") none none none) (some "fresh")).returned
      = SnapReturn.ok "fresh" false := by
  have h1 := c4_mint_error_handling defaultCfg 50
    (sampleOrder (some "KALORIZ-7") none none none) none (by decide)
  have h2 := c4_mint_error_handling defaultCfg 50
    (sampleOrder (some "KALORIZ-7") none none none) (some "fresh") (by decide)
  have h3 := h2.2.2 "fresh" rfl (by decide)
  exact ⟨h1.1, h1.2.1 (Or.inl rfl), h3.1, h3.2.1⟩

/-- C10: a stored order id that is empty or whitespace-only, or whose part
before the first matching retry separator is empty, makes the split step
report no base identifier; the mint path then uses the freshly built base id
`{configured prefix}-{order primary key}`, where the prefix is stripped of
surrounding whitespace and defaults to `"KALORIZ"` when the setting is unset
or the empty string. -/
theorem c10_fresh_base_id :
    (∀ (cfg : MidtransCfg) (o : Order),
      pyStrip (o.midtrans_order_id.getD "") = "" →
      (split_midtrans_order_id cfg o).1 = none) ∧
    (∀ (cfg : MidtransCfg) (o : Order) (sep : String),
      firstSeparator cfg (pyStrip (o.midtrans_order_id.getD "")) = some sep →
      (pySplitOnce (pyStrip (o.midtrans_order_id.getD "")) sep).1 = "" →
      (split_midtrans_order_id cfg o).1 = none) ∧
    (∀ (cfg : MidtransCfg) (maxLen : Nat) (o : Order) (tok : Option String),
      reachesMint o →
      (split_midtrans_order_id cfg (afterStaleClear o)).1 = none →
      (get_or_create_snap_token cfg maxLen o tok).baseIdUsed
        = some (build_midtrans_base_id cfg (afterStaleClear o))) ∧
    (∀ (cfg : MidtransCfg) (o : Order),
      (cfg.orderIdPrefixSetting = none ∨ cfg.orderIdPrefixSetting = some "") →
      build_midtrans_base_id cfg o = "KALORIZ-" ++ toString o.pk) ∧
    (∀ (cfg : MidtransCfg) (o : Order) (p : String),
      cfg.orderIdPrefixSetting = some p → p ≠ "" →
      build_midtrans_base_id cfg o = pyStrip p ++ "-" ++ toString o.pk) := by
  refine ⟨?_, ?_, ?_, ?_, ?_⟩
  · intro cfg o hcur
    simp only [split_midtrans_order_id]
    rw [if_pos hcur]
  · intro cfg o sep hsep hempty
    simp only [split_midtrans_order_id]
    by_cases hcur : pyStrip (o.midtrans_order_id.getD "") = ""
    · rw [if_pos hcur]
    · rw [if_neg hcur]
      simp only [hsep, hempty]
      rfl
  · intro cfg maxLen o tok hm hsplit
    have hbase : resolvedBase cfg (afterStaleClear o)
        = build_midtrans_base_id cfg (afterStaleClear o) :=
      resolvedBase_of_none cfg (afterStaleClear o) hsplit
    simp only [get_or_create_snap_token]
    rw [if_neg hm]
    cases tok with
    | none => simp [hbase]
    | some t =>
      by_cases hq : t = ""
      · simp [hq, hbase]
      · simp [hq, hbase]
  · intro cfg o hset
    have key : pyStrip (if (cfg.orderIdPrefixSetting.getD "KALORIZ") = "" then "KALORIZ"
        else cfg.orderIdPrefixSetting.getD "KALORIZ") = "KALORIZ" := by
      rcases hset with h | h <;> rw [h] <;> decide
    simp only [build_midtrans_base_id]
    rw [key]
    rw [show ("KALORIZ" ++ "-" : String) = "KALORIZ-" from by decide]
  · intro cfg o p hset hne
    simp only [build_midtrans_base_id, hset]
    rw [show (some p : Option String).getD "KALORIZ" = p from rfl]
    rw [if_neg hne]

/-- C10 witness: whitespace-only id, separator-leading id, the rebuilt base
on the mint path, and the default prefix. -/
theorem c10_fresh_base_id_witness :
    (split_midtrans_order_id defaultCfg
        (sampleOrder (some "   ") none none none)).1 = none ∧
    (split_midtrans_order_id defaultCfg
        (sampleOrder (some "-R3") none none none)).1 = none ∧
    (get_or_create_snap_token defaultCfg 50
        (sampleOrder (some " ") none none none) (some "tk")).baseIdUsed
      = some (build_midtrans_base_id defaultCfg
          (afterStaleClear (sampleOrder (some " ") none none none))) ∧
    build_midtrans_base_id defaultCfg (sampleOrder none none none none)
      = "KALORIZ-" ++ toString (sampleOrder none none none none).pk := by
  refine ⟨?_, ?_, ?_, ?_⟩
  · exact c10_fresh_base_id.1 defaultCfg
      (sampleOrder (some "   ") none none none) (by decide)
  · exact c10_fresh_base_id.2.1 defaultCfg
      (sampleOrder (some "-R3") none none none) "-R" (by decide) (by decide)
  · exact c10_fresh_base_id.2.2.1 defaultCfg 50
      (sampleOrder (some " ") none none none) (some "tk") (by decide) (by decide)
  · exact c10_fresh_base_id.2.2.2.1 defaultCfg
      (sampleOrder none none none none) (Or.inl rfl)

/-- C8 counterexample: a non-404 HTTP error whose body is valid JSON does not
yield `None` — the error body falls through to JSON parsing and the parsed
value is returned (services.py lines 49-62). -/
theorem c8_counterexample :
    fetch_midtrans_transaction_status "server-key" "KALORIZ-9"
        (HttpOutcome.httpError 500 "2") sampleJsonParse = some (Json.jnum 2) ∧
    fetch_midtrans_transaction_status "server-key" "KALORIZ-9"
        (HttpOutcome.httpError 500 "2") sampleJsonParse ≠ none := by
  constructor
  · rfl
  · intro h
    exact Option.noConfusion h

/-- C8 amended: the status fetcher never raises (it is a total function into
an optional JSON value); a 404 response yields `None`, a connection-level
failure yields `None`, an empty body yields `None`, a body that fails JSON
parsing yields `None`, and any other response body — including the body of a
non-404 HTTP error — is parsed and the parsed JSON returned as-is. -/
theorem c8_amended_fetch (sk oid : String) (parse : String → Option Json)
    (hsk : sk ≠ "") (hoid : oid ≠ "") :
    fetch_midtrans_transaction_status sk oid HttpOutcome.connError parse = none ∧
    (∀ body : String,
      fetch_midtrans_transaction_status sk oid (HttpOutcome.httpError 404 body) parse
        = none) ∧
    (∀ (code : Nat) (body : String), code ≠ 404 →
      fetch_midtrans_transaction_status sk oid (HttpOutcome.httpError code body) parse
        = (if body = "" then none else parse body)) ∧
    (∀ body : String,
      fetch_midtrans_transaction_status sk oid (HttpOutcome.success body) parse
        = (if body = "" then none else parse body)) := by
  have hg : ¬ (oid = "" ∨ sk = "") := fun h => h.elim hoid hsk
  refine ⟨?_, ?_, ?_, ?_⟩
  · simp only [fetch_midtrans_transaction_status]
    rw [if_neg hg]
  · intro body
    simp only [fetch_midtrans_transaction_status]
    rw [if_neg hg]
    simp
  · intro code body hc
    simp only [fetch_midtrans_transaction_status]
    rw [if_neg hg]
    simp [hc]
  · intro body
    simp only [fetch_midtrans_transaction_status]
    rw [if_neg hg]

/-- C8 witness for the amended claim at concrete inputs. -/
theorem c8_amended_fetch_witness :
    fetch_midtrans_transaction_status "sk" "O1" HttpOutcome.connError
      sampleJsonParse = none ∧
    fetch_midtrans_transaction_status "sk" "O1" (HttpOutcome.httpError 404 "2")
      sampleJsonParse = none ∧
    fetch_midtrans_transaction_status "sk" "O1" (HttpOutcome.httpError 503 "2")
      sampleJsonParse = some (Json.jnum 2) ∧
    fetch_midtrans_transaction_status "sk" "O1" (HttpOutcome.success "2")
      sampleJsonParse = some (Json.jnum 2) := by
  have h := c8_amended_fetch "sk" "O1" sampleJsonParse (by decide) (by decide)
  refine ⟨h.1, h.2.1 "2", ?_, ?_⟩
  · rw [h.2.2.1 503 "2" (by decide)]
    rfl
  · rw [h.2.2.2 "2"]
    rfl

theorem heapFind_cons_ne (b a : Nat) (obj : PObj) (h : Heap) (hne : b ≠ a) :
    heapFind ((b, obj) :: h) a = heapFind h a := by
  unfold heapFind
  rw [List.find?_cons_of_neg _ (by simpa using hne)]

theorem heapFind_cons_self (a : Nat) (obj : PObj) (h : Heap) :
    heapFind ((a, obj) :: h) a = some obj := by
  unfold heapFind
  rw [List.find?_cons_of_pos _ (by simp)]
  rfl

theorem dictGet_cons_hit (e : String × PVal) (es : List (String × PVal))
    (k : String) (h : e.1 = k) : dictGet (e :: es) k = some e.2 := by
  unfold dictGet
  rw [@List.find?_cons_of_pos _ (fun x => x.1 == k) e es (by simpa using h)]
  rfl

theorem dictGet_cons_miss (e : String × PVal) (es : List (String × PVal))
    (k : String) (h : ¬ e.1 = k) : dictGet (e :: es) k = dictGet es k := by
  unfold dictGet
  rw [@List.find?_cons_of_neg _ (fun x => x.1 == k) e es (by simpa using h)]

theorem dictSet_cons_hit (e : String × PVal) (es : List (String × PVal))
    (k : String) (v : PVal) (h : e.1 = k) :
    dictSet (e :: es) k v = (k, v) :: es := by
  simp only [dictSet]
  rw [if_pos (show ((e.1 == k) = true) from by simpa using h)]

theorem dictSet_cons_miss (e : String × PVal) (es : List (String × PVal))
    (k : String) (v : PVal) (h : ¬ e.1 = k) :
    dictSet (e :: es) k v = e :: dictSet es k v := by
  simp only [dictSet]
  rw [if_neg (show ¬ ((e.1 == k) = true) from by simpa using h)]

theorem dictGet_dictSet_self (es : List (String × PVal)) (k : String) (v : PVal) :
    dictGet (dictSet es k v) k = some v := by
  induction es with
  | nil => exact dictGet_cons_hit (k, v) [] k rfl
  | cons e es ih =>
    by_cases h : e.1 = k
    · rw [dictSet_cons_hit e es k v h]
      exact dictGet_cons_hit (k, v) es k rfl
    · rw [dictSet_cons_miss e es k v h, dictGet_cons_miss e _ k h]
      exact ih

theorem dictGet_dictSet_of_ne (es : List (String × PVal)) (k : String) (v : PVal)
    (k' : String) (hne : k' ≠ k) :
    dictGet (dictSet es k v) k' = dictGet es k' := by
  have hkk : ¬ ((k, v).1 = k') := fun hq => hne hq.symm
  induction es with
  | nil =>
    rw [show dictSet [] k v = [(k, v)] from rfl, dictGet_cons_miss (k, v) [] k' hkk]
  | cons e es ih =>
    by_cases h : e.1 = k
    · rw [dictSet_cons_hit e es k v h, dictGet_cons_miss (k, v) es k' hkk,
        dictGet_cons_miss e es k' (by rw [h]; exact hkk)]
    · rw [dictSet_cons_miss e es k v h]
      by_cases hq : e.1 = k'
      · rw [dictGet_cons_hit e _ k' hq, dictGet_cons_hit e es k' hq]
      · rw [dictGet_cons_miss e _ k' hq, dictGet_cons_miss e es k' hq]
        exact ih

/-- C9: the payload-preparation step of `get_or_create_snap_token` never
mutates a pre-existing object: every address allocated before the call maps
to its original object afterwards, and the `order_id` / `gross_amount` writes
land in the freshly allocated clone of `transaction_details`. -/
theorem c9_payload_frame (h0 : Heap) (next0 : Nat) (bp : Option Nat)
    (oid : String) (g : Int) (a : Nat) (ha : a < next0) :
    heapFind (prepare_transaction_payload h0 next0 bp oid g).1 a = heapFind h0 a ∧
    next0 ≤ (prepare_transaction_payload h0 next0 bp oid g).2.2.2 ∧
    (∃ es, heapFind (prepare_transaction_payload h0 next0 bp oid g).1
        ((prepare_transaction_payload h0 next0 bp oid g).2.2.2)
        = some (PObj.pdict es) ∧
      dictGet es "order_id" = some (PVal.vstr oid) ∧
      dictGet es "gross_amount" = some (PVal.vint g)) := by
  refine ⟨?_, ?_, ?_⟩
  · simp only [prepare_transaction_payload]
    rw [heapFind_cons_ne next0 a _ _ (by omega),
      heapFind_cons_ne (next0 + 1) a _ _ (by omega),
      heapFind_cons_ne (next0 + 1) a _ _ (by omega),
      heapFind_cons_ne next0 a _ _ (by omega),
      heapFind_cons_ne (next0 + 3) a _ _ (by omega),
      heapFind_cons_ne next0 a _ _ (by omega),
      heapFind_cons_ne (next0 + 2) a _ _ (by omega),
      heapFind_cons_ne next0 a _ _ (by omega),
      heapFind_cons_ne (next0 + 1) a _ _ (by omega),
      heapFind_cons_ne next0 a _ _ (by omega)]
  · show next0 ≤ next0 + 1
    omega
  · simp only [prepare_transaction_payload]
    rw [heapFind_cons_ne next0 (next0 + 1) _ _ (by omega),
      heapFind_cons_self]
    refine ⟨_, rfl, ?_, ?_⟩
    · rw [dictGet_dictSet_of_ne _ _ _ _ (by decide), dictGet_dictSet_self]
    · rw [dictGet_dictSet_self]

/-- C9 witness: both pre-existing objects of the sample heap survive the
payload preparation untouched. -/
theorem c9_payload_frame_witness :
    heapFind (prepare_transaction_payload sampleHeap 2 (some 0) "KALORIZ-7-R1" 100000).1 0
      = heapFind sampleHeap 0 ∧
    heapFind (prepare_transaction_payload sampleHeap 2 (some 0) "KALORIZ-7-R1" 100000).1 1
      = heapFind sampleHeap 1 ∧
    heapFind sampleHeap 1 = some (PObj.pdict [("expiry", PVal.vint 3)]) :=
  ⟨(c9_payload_frame sampleHeap 2 (some 0) "KALORIZ-7-R1" 100000 0 (by decide)).1,
   (c9_payload_frame sampleHeap 2 (some 0) "KALORIZ-7-R1" 100000 1 (by decide)).1,
   rfl⟩

end Kaloriz
